import Mathlib

/-!
Verification of the boat-filter NL-to-Polars query pipeline.

The development shallowly embeds the core of the repository under scrutiny:

* src/app.py — the interactive entry point: column extraction from generated
  expressions, display-column resolution, value formatting, numeric-span
  editing of the query text, the prompt builder, and the generate/execute
  retry loop of query_boats;
* src/filters3.py — the console entry point, which duplicates the column
  extraction, display-column resolution, and price-formatting logic, and whose
  bullets function renders results.

Tables are modelled as a list of column names together with a list of rows;
row contents are opaque to the retry and column logic, so the row type is a
parameter.  The external generative service and the Python evaluation of a
generated expression are modelled as oracles (a function from call index to
returned text, and a function from expression text to a table or an error
message), since the pipeline treats both as black boxes.  Machine strings are
Lean strings; Python list/str operations are modelled on List Char where
character-level faithfulness matters.
-/

/-- A polars DataFrame as the pipeline sees it: ordered column names plus a
list of rows.  Cell contents are never inspected by the retry or column
logic, so the row type is a parameter. -/
structure PyDF (α : Type) where
  columns : List String
  rows : List α
deriving DecidableEq, Repr

/-- The result of the bare constructor pl.DataFrame(): no columns, no rows. -/
def emptyDF {α : Type} : PyDF α := ⟨[], []⟩

/-! ## Alias-group tables

Both entry points declare identical alias lists (src/app.py lines 92-96,
src/filters3.py lines 91-95).  Each namespace keeps its own copy, as the
source files do. -/

namespace App

def NAME_COLS : List String :=
  ["boat_name", "Nome della barca", "boatName", "name", "title"]

def PRICE_COLS : List String := ["price", "Price", "prezzo", "cost"]

def YEAR_COLS : List String :=
  ["year", "Year", "anno", "build_year", "construction_year"]

def BRAND_COLS : List String := ["brand", "Brand", "marca", "manufacturer", "make"]

def LOCATION_COLS : List String :=
  ["location", "Location", "luogo", "region", "area", "port"]

end App

namespace Filters3

def NAME_COLS : List String :=
  ["boat_name", "Nome della barca", "boatName", "name", "title"]

def PRICE_COLS : List String := ["price", "Price", "prezzo", "cost"]

def YEAR_COLS : List String :=
  ["year", "Year", "anno", "build_year", "construction_year"]

def BRAND_COLS : List String := ["brand", "Brand", "marca", "manufacturer", "make"]

def LOCATION_COLS : List String :=
  ["location", "Location", "luogo", "region", "area", "port"]

end Filters3

/-! ## Regex scanners used by extract_cols

Both files run re.findall with the two patterns

  pl\.col\( ?[quote]([^quotes]+)[quote] ?\)
  df\[ ?[quote]([^quotes]+)[quote] ?\]

where [quote] is a character class holding the single and the double quote.
The scanner below implements exactly these patterns.  The optional-space
atoms need no backtracking: if the greedy branch consumes the space and the
continuation fails, the backtracked branch must match a quote (resp. the
closing bracket) at the space character, which always fails, so committing to
the greedy branch is equivalent.  Likewise [^quotes]+ is a maximal run ended
by the first quote, and shrinking it can never satisfy the following quote
atom.  re.findall scans left to right and resumes after the end of each
whole match. -/

namespace PyRe

/-- The single-quote character. -/
def squote : Char := Char.ofNat 39

/-- Membership in the regex character class holding both quote kinds. -/
def isQuoteCh (c : Char) : Bool := c = squote || c = '"'

/-- Match a literal character sequence at the head of the input, returning
the rest on success. -/
def stripLit : List Char → List Char → Option (List Char)
  | [], rest => some rest
  | p :: ps, c :: cs => if c = p then stripLit ps cs else none
  | _ :: _, [] => none

/-- Try to match one column-reference pattern at the head of the input:
the literal opener, an optional space, a quote, a nonempty run of non-quote
characters (the capture group), a quote, an optional space, and the closer.
Returns the capture and the input remaining after the whole match. -/
def matchColRef (opener : List Char) (closer : Char) (cs : List Char) :
    Option (List Char × List Char) :=
  match stripLit opener cs with
  | none => none
  | some r0 =>
    let r1 := match r0 with
      | ' ' :: rest => rest
      | _ => r0
    match r1 with
    | [] => none
    | q :: rest =>
      if isQuoteCh q then
        let body := rest.takeWhile (fun c => !(isQuoteCh c))
        if body.isEmpty then none
        else
          match rest.drop body.length with
          | [] => none
          | q2 :: r3 =>
            if isQuoteCh q2 then
              let r4 := match r3 with
                | ' ' :: rest2 => rest2
                | _ => r3
              match r4 with
              | [] => none
              | c :: r5 => if c = closer then some (body, r5) else none
            else none
      else none

/-- Left-to-right non-overlapping scan collecting capture groups, as
re.findall does.  Fuel bounds the recursion; each step either consumes the
whole match or advances one character, so an initial fuel of the input
length plus one is always enough. -/
def findallAux (opener : List Char) (closer : Char) : List Char → Nat → List (List Char)
  | _, 0 => []
  | [], _ + 1 => []
  | c :: tail, fuel + 1 =>
    match matchColRef opener closer (c :: tail) with
    | some (body, rest) => body :: findallAux opener closer rest fuel
    | none => findallAux opener closer tail fuel

/-- All capture groups of the pl.col pattern in the given text. -/
def findall_plcol (s : String) : List String :=
  (findallAux "pl.col(".toList ')' s.toList (s.toList.length + 1)).map
    (fun l => String.mk l)

/-- All capture groups of the df-bracket pattern in the given text. -/
def findall_dfbracket (s : String) : List String :=
  (findallAux "df[".toList ']' s.toList (s.toList.length + 1)).map
    (fun l => String.mk l)

/-- First-occurrence deduplication.  Python materializes the matches through
a set and returns list(cols); the set iteration order is unspecified, so the
model fixes first-occurrence order and the claims rely only on membership. -/
def dedupFirst (seen : List String) : List String → List String
  | [] => []
  | x :: xs =>
    if seen.contains x then dedupFirst seen xs
    else x :: dedupFirst (x :: seen) xs

end PyRe

namespace App

/-- src/app.py lines 98-105: union of the capture groups of the two column
patterns, deduplicated. -/
def extract_cols (expr : String) : List String :=
  PyRe.dedupFirst [] (PyRe.findall_plcol expr ++ PyRe.findall_dfbracket expr)

/-- src/app.py lines 107-133: first Name/Price/Year alias found among the
result columns, then the query columns present in the result columns, each
added only when not already present. -/
def get_display_columns {α : Type} (df : PyDF α) (query_cols : List String) :
    List String :=
  let name_col := NAME_COLS.find? (fun c => df.columns.contains c)
  let price_col := PRICE_COLS.find? (fun c => df.columns.contains c)
  let year_col := YEAR_COLS.find? (fun c => df.columns.contains c)
  let d0 := match name_col with
    | some c => [c]
    | none => []
  let d1 := match price_col with
    | some c => if d0.contains c then d0 else d0 ++ [c]
    | none => d0
  let d2 := match year_col with
    | some c => if d1.contains c then d1 else d1 ++ [c]
    | none => d1
  query_cols.foldl
    (fun acc col =>
      if df.columns.contains col && !(acc.contains col) then acc ++ [col]
      else acc)
    d2

end App

namespace Filters3

/-- src/filters3.py lines 100-106: textually identical to the app version. -/
def extract_cols (expr : String) : List String :=
  PyRe.dedupFirst [] (PyRe.findall_plcol expr ++ PyRe.findall_dfbracket expr)

/-- src/filters3.py lines 108-134: textually identical to the app version. -/
def get_display_columns {α : Type} (df : PyDF α) (query_cols : List String) :
    List String :=
  let name_col := NAME_COLS.find? (fun c => df.columns.contains c)
  let price_col := PRICE_COLS.find? (fun c => df.columns.contains c)
  let year_col := YEAR_COLS.find? (fun c => df.columns.contains c)
  let d0 := match name_col with
    | some c => [c]
    | none => []
  let d1 := match price_col with
    | some c => if d0.contains c then d0 else d0 ++ [c]
    | none => d0
  let d2 := match year_col with
    | some c => if d1.contains c then d1 else d1 ++ [c]
    | none => d1
  query_cols.foldl
    (fun acc col =>
      if df.columns.contains col && !(acc.contains col) then acc ++ [col]
      else acc)
    d2

end Filters3

/-- Display-column resolution as the specification phrases it: the first
Name-group alias present in the result columns; then the first Price-group
alias present and not already added; then the first Year-group alias present
and not already added; then the extracted identifiers that are present in
the result columns, in their original relative order, skipping duplicates.
Identifiers absent from the result columns are dropped. -/
def display_columns_spec (resultColumns : List String) (extracted : List String) :
    List String :=
  let s0 := (App.NAME_COLS.find? (fun c => resultColumns.contains c)).toList
  let s1 := s0 ++
    (App.PRICE_COLS.find?
      (fun c => resultColumns.contains c && !(s0.contains c))).toList
  let s2 := s1 ++
    (App.YEAR_COLS.find?
      (fun c => resultColumns.contains c && !(s1.contains c))).toList
  extracted.foldl
    (fun acc col =>
      if resultColumns.contains col && !(acc.contains col) then acc ++ [col]
      else acc)
    s2

/-! ## Value formatting

src/app.py lines 135-158.  Cells are modelled as null or integer: the
dataset is JSON whose numeric cells of interest are integers, and the code
converts a float with integral value to int before formatting, so the
integer embedding covers exactly the values the formatting branches are
specified on; non-integral floats are outside the embedding.  The Python
float formattings :.1f and :.0f are modelled as exact round-half-even of the
scaled value; CPython rounds the nearest binary double, which agrees with
this on every value whose scaled fraction is not adjacent to a decimal tie,
and the specified instances are exact. -/

/-- Round-half-even of the rational a / b, for b > 0: the rounding used by
Python float formatting. -/
def rdivHE (a b : Int) : Int :=
  let q := Int.fdiv a b
  let r := a - q * b
  if 2 * r < b then q
  else if b < 2 * r then q + 1
  else if q % 2 = 0 then q else q + 1

/-- The text of value/1000000 formatted with one decimal digit, for the
nonnegative values the price branch feeds it. -/
def fmtMillions (v : Int) : String :=
  let n := (rdivHE (10 * v) 1000000).toNat
  toString (n / 10) ++ "." ++ toString (n % 10)

/-- The text of value/1000 formatted with no decimal digits, for the
nonnegative values the price branch feeds it. -/
def fmtThousands (v : Int) : String :=
  toString (rdivHE v 1000).toNat

/-- Insert a comma after every third character of a reversed digit list. -/
def commaGroupRev : List Char → List Char
  | a :: b :: c :: d :: rest => a :: b :: c :: ',' :: commaGroupRev (d :: rest)
  | l => l

/-- An integer printed with thousands grouping, as Python :,.0f renders an
integral value. -/
def commaGroup (v : Int) : String :=
  (if v < 0 then "-" else "") ++
    String.mk ((commaGroupRev (toString v.natAbs).toList.reverse).reverse)

namespace App

/-- src/app.py lines 135-158: null renders as N/A; a cell of a Price-group
column renders in millions, thousands, or grouped euros by magnitude; a cell
of a Year-group column and any other integer render as plain text. -/
def format_value (value : Option Int) (col_name : String) : String :=
  match value with
  | none => "N/A"
  | some v =>
    if PRICE_COLS.contains col_name then
      if v ≥ 1000000 then "€" ++ fmtMillions v ++ "M"
      else if v ≥ 1000 then "€" ++ fmtThousands v ++ "K"
      else "€" ++ commaGroup v
    else if YEAR_COLS.contains col_name then toString v
    else toString v

end App

/-- Price-cell formatting as the claim phrases it: N/A for null, euro
millions with one decimal at or above 1,000,000, euro thousands with no
decimals at or above 1,000, thousands-grouped euros otherwise. -/
def price_format_spec (value : Option Int) : String :=
  match value with
  | none => "N/A"
  | some v =>
    if v ≥ 1000000 then "€" ++ fmtMillions v ++ "M"
    else if v ≥ 1000 then "€" ++ fmtThousands v ++ "K"
    else "€" ++ commaGroup v

/-! ## Prompt construction and the retry loop

src/app.py lines 185-295.  The external generative service is an oracle
mapping the call index to the text that get_polars_expression returns for
that call (the function returns the empty string when the service fails or
replies empty, lines 242-244, and otherwise the fence-stripped reply); the
evaluation of a generated expression (compile + eval + LazyFrame/DataFrame
normalization, lines 272-279) is an oracle mapping expression text to a
table or to the error message str(e).  The pandas head rendering that
produces df_head_str is a collaborator outside the core and is passed as a
function parameter. -/

namespace App

/-- src/app.py lines 185-202, the instruction block of the prompt. -/
def INSTRUCTION_STR : String :=
  "1. Convert the query to executable Python code using **Polars** (not pandas). DO NOT use the option case sensitive\n" ++
  "2. The final line must be a Python expression that can be passed to eval().\n" ++
  "3. DO NOT use the option case sensitive\n" ++
  "3. It **must return a pl.DataFrame** (use head() if necessary).\n" ++
  "4. PRINT ONLY THE EXPRESSION, no extra text or formatting.\n" ++
  "5. Do not wrap the expression in quotes or markdown.\n" ++
  "6. Use `df.filter(<boolean>)`, `pl.lit`, or the lazy API; **avoid** `df[bool_mask]` row‑filter syntax.\n" ++
  "7. **IMPORTANT**: If the query mentions a specific brand name (like \x27Azimut\x27, \x27Ferretti\x27, \x27Princess\x27, etc.), you MUST filter by that brand. Look for brand information in columns like \x27brand\x27, \x27manufacturer\x27, \x27make\x27, or check if the brand name appears in the boat name. Use case-insensitive matching with `str.contains()`.\n" ++
  "8. For brand filtering, use: `df.filter(pl.col(\x27brand\x27).str.contains(\x27brand_name\x27))` or similar pattern matching.\n" ++
  "9. For location filtering, use: `df.filter(pl.col(\x27location\x27).str.contains(\x27location_name\x27))` do not use the option case sensitive or similar pattern matching.\n" ++
  "10. Combine filters using `&` (AND) operator.\n" ++
  "11. For case-insensitive substring search in Polars, use a regex pattern with (?i) at the start, e.g. pl.col(\x27brand\x27).str.contains(\x27(?i)azimut\x27). Do NOT use a case_insensitive argument in .str.contains.\n"

/-- src/app.py lines 204-213 with the placeholders substituted. -/
def renderPrompt (df_str query : String) : String :=
  "You are working with a Polars DataFrame in Python.\nThe DataFrame variable is named `df`.\nHere is the output of `print(df.head())`:\n" ++
  df_str ++ "\n\nFollow these instructions strictly:\n" ++ INSTRUCTION_STR ++
  "\nQuery: " ++ query ++ "\n\nExpression:"

/-- src/app.py lines 227-234: the prompt sent on one generation call.  A
present prior error is appended as correction context; Python tests the
error with truthiness, so an empty error string is treated like none. -/
def promptWithError (query df_str : String) (error : Option String) : String :=
  match error with
  | none => renderPrompt df_str query
  | some e =>
    if e = "" then renderPrompt df_str query
    else
      renderPrompt df_str query ++
        "\nThe previous expression produced the following error:\n" ++ e ++
        "\nPlease provide a corrected Polars expression."

end App

/-- The outcome of one query_boats run.  The source always returns a triple;
the constructors record which exit produced it (empty-dataset short circuit,
empty generation, success, exhausted retries). -/
inductive QBOutcome (α : Type) where
  | emptyDataset : QBOutcome α
  | emptyGen : QBOutcome α
  | success (expr : String) (table : PyDF α) (showCols : List String) : QBOutcome α
  | exhausted (lastExpr : String) (lastError : Option String) : QBOutcome α
deriving DecidableEq, Repr

/-- The triple the source actually returns for each outcome
(src/app.py lines 258, 269, 287, 295). -/
def QBOutcome.toTriple {α : Type} : QBOutcome α → String × PyDF α × List String
  | emptyDataset => ("", emptyDF, [])
  | emptyGen => ("", emptyDF, [])
  | success e t c => (e, t, c)
  | exhausted e _ => (e, emptyDF, [])

namespace App

/-- src/app.py lines 265-295, the body of the retry loop of query_boats.
One iteration per fuel unit: generate (recording the prompt built for this
call), return immediately on empty text, otherwise execute; on success
resolve display columns on the full result and truncate it to 20 rows; on
failure carry the error message into the next iteration.  Returns the
prompts passed to the generator, one per call made, and the outcome. -/
def qbLoop {α : Type} (execf : String → Except String (PyDF α))
    (gen : Nat → String) (query sample : String) :
    Nat → Nat → Option String → String → List String × QBOutcome α
  | 0, _, err, lastExpr => ([], QBOutcome.exhausted lastExpr err)
  | fuel + 1, k, err, _ =>
    if gen k = "" then
      ([promptWithError query sample err], QBOutcome.emptyGen)
    else
      match execf (gen k) with
      | Except.ok res =>
        ([promptWithError query sample err],
          QBOutcome.success (gen k) ⟨res.columns, res.rows.take 20⟩
            (get_display_columns res (extract_cols (gen k))))
      | Except.error e =>
        let r := qbLoop execf gen query sample fuel (k + 1) (some e) (gen k)
        (promptWithError query sample err :: r.1, r.2)

/-- src/app.py lines 246-295: empty dataset short-circuits before any
generation; otherwise the loop runs with max_retries + 1 iterations of
fuel, starting at attempt 0 with no prior error and empty last expression. -/
def query_boats {α : Type} (execf : String → Except String (PyDF α))
    (gen : Nat → String) (df : PyDF α) (query : String)
    (headStr : PyDF α → String) (max_retries : Nat) :
    List String × QBOutcome α :=
  if df.rows.length = 0 then ([], QBOutcome.emptyDataset)
  else qbLoop execf gen query (headStr df) (max_retries + 1) 0 none ""

end App

/-- The prompts of a run of consecutive failing attempts: attempt k fails
with message emsg k, which becomes the prior error of the next prompt. -/
def failPrompts (query sample : String) (emsg : Nat → String) :
    Nat → Nat → List String
  | 0, _ => []
  | m + 1, k =>
    App.promptWithError query sample (some (emsg k)) ::
      failPrompts query sample emsg m (k + 1)

/-- substring containment, used to state that a prompt carries an error. -/
def strContains (s sub : String) : Prop := ∃ a b, s = a ++ sub ++ b

/-! ## The evaluation environment of the Executor

src/app.py lines 273-274 and src/filters3.py lines 219-220 run
eval(expr, dict(), local_ns) with local_ns binding exactly df and pl.  Name
resolution inside a Python eval looks up the locals, then the globals, then
the builtins: CPython documents that when the globals dict passed to eval
lacks the key dunder-builtins, a reference to the builtins module is
inserted into it, so every builtins member is reachable by name from the
evaluated expression.  builtins_names lists a representative subset of the
builtins module (an under-approximation of what is reachable). -/

namespace PyEval

/-- The names bound by the locals dict the code passes to eval. -/
def local_ns_names : List String := ["df", "pl"]

/-- The names bound by the globals dict the code passes to eval: none. -/
def globals_arg_names : List String := []

/-- A representative subset of the members of the CPython builtins module,
reachable through the implicitly inserted dunder-builtins entry. -/
def builtins_names : List String :=
  ["open", "__import__", "eval", "exec", "compile", "getattr", "setattr",
   "input", "print", "vars", "globals", "locals"]

/-- Whether a name resolves inside the evaluated expression: locals, then
globals, then builtins. -/
def name_resolves (n : String) : Bool :=
  local_ns_names.contains n || globals_arg_names.contains n ||
    builtins_names.contains n

end PyEval

/-! ## Numeric token editing

src/app.py lines 160-163 (extract_number_spans) and 450-452 (the rewrite
loop of main).  Text is modelled as a character list.  The regex is one or
more digits, optionally followed by one dot or comma and more digits, with a
word boundary on both sides.  Word characters are modelled as ASCII
alphanumerics plus underscore (the Python regex is additionally
Unicode-aware, which the round-trip property does not depend on).  The
backtracking of the regex needs no search here: the digit runs are maximal
because shrinking one puts the following boundary between two digits, and
the optional fractional group falls back to absent exactly when its trailing
boundary fails. -/

namespace NumEdit

def isWordChar (c : Char) : Bool := c.isAlphanum || c = '_'

/-- word-ness of the character at an index; out of range counts non-word. -/
def wordAt (cs : List Char) (i : Nat) : Bool :=
  match cs.get? i with
  | some c => isWordChar c
  | none => false

/-- word-ness of the character left of an index. -/
def leftWord (cs : List Char) : Nat → Bool
  | 0 => false
  | j + 1 => wordAt cs j

/-- regex word boundary before index i. -/
def boundary (cs : List Char) (i : Nat) : Bool :=
  leftWord cs i != wordAt cs i

/-- length of the digit run starting at an index. -/
def digitRun (cs : List Char) (i : Nat) : Nat :=
  ((cs.drop i).takeWhile (fun c => c.isDigit)).length

/-- length of the regex match starting at index i, if any. -/
def matchLen (cs : List Char) (i : Nat) : Option Nat :=
  if boundary cs i then
    let d := digitRun cs i
    if d = 0 then none
    else
      let withFrac : Option Nat :=
        match cs.get? (i + d) with
        | some c =>
          if c = '.' || c = ',' then
            let d2 := digitRun cs (i + d + 1)
            if d2 = 0 then none
            else if boundary cs (i + d + 1 + d2) then some (d + 1 + d2)
            else none
          else none
        | none => none
      match withFrac with
      | some L => some L
      | none => if boundary cs (i + d) then some d else none
  else none

/-- One span found by re.finditer: the matched literal and its offsets. -/
structure Span where
  lit : List Char
  start : Nat
  stop : Nat
deriving DecidableEq, Repr

/-- Left-to-right non-overlapping scan, resuming after each match, as
re.finditer does.  Each step consumes fuel and advances at least one
position, so initial fuel of the text length plus one is always enough. -/
def scanSpans (cs : List Char) : Nat → Nat → List Span
  | 0, _ => []
  | fuel + 1, i =>
    if i < cs.length then
      match matchLen cs i with
      | some L => ⟨(cs.drop i).take L, i, i + L⟩ :: scanSpans cs fuel (i + L)
      | none => scanSpans cs fuel (i + 1)
    else []

/-- src/app.py lines 160-163: the numbers in the text with their spans. -/
def extract_number_spans (cs : List Char) : List Span :=
  scanSpans cs (cs.length + 1) 0

/-- src/app.py lines 450-452: substitute the replacements into the spans,
iterating the zipped pairs in reversed order (highest offset first), each
step splicing the replacement between the prefix before start and the
suffix from stop. -/
def rewriteNumbers (cs : List Char) (spans : List Span)
    (reps : List (List Char)) : List Char :=
  ((spans.zip reps).reverse).foldl
    (fun acc sr => acc.take sr.1.start ++ sr.2 ++ acc.drop sr.1.stop) cs

end NumEdit

/-! ## The console renderer of filters3 -/

namespace Filters3

/-- src/filters3.py lines 147-186: bullets prints nothing on an empty
result or when no display column resolves, and otherwise prints one bullet
per row of the whole result, with no row cap.  This function returns the
rows it renders. -/
def bullets_rendered_rows {α : Type} (df : PyDF α) (cols : List String) :
    List α :=
  if df.rows.isEmpty then []
  else if (get_display_columns df cols).isEmpty then []
  else df.rows

end Filters3

/-! ## Concrete instances used by the witnesses -/

/-- A one-row table. -/
def wDfOne : PyDF Unit := ⟨["name"], [()]⟩

/-- A table with columns but no rows. -/
def wDfEmpty : PyDF Unit := ⟨["price"], []⟩

/-- A schema-sample renderer. -/
def wHeadStr : PyDF Unit → String := fun _ => "sample"

/-- A generator whose every reply is the same malformed text. -/
def wGenBad : Nat → String := fun _ => "BAD"

/-- A generator whose every reply is empty. -/
def wGenEmpty : Nat → String := fun _ => ""

/-- A generator whose every reply is the expression x. -/
def wGenX : Nat → String := fun _ => "x"

/-- An executor that always fails with the message boom. -/
def wExecFail : String → Except String (PyDF Unit) := fun _ => Except.error "boom"

/-- An executor that always returns a 25-row table. -/
def wExecOk : String → Except String (PyDF Unit) :=
  fun _ => Except.ok ⟨["name"], List.replicate 25 ()⟩

/-! ## Helper lemmas -/

theorem find?_congr_pred {α : Type} (p q : α → Bool) :
    ∀ l : List α, (∀ a ∈ l, p a = q a) → l.find? p = l.find? q := by
  intro l
  induction l with
  | nil => intro _; rfl
  | cons a as ih =>
    intro h
    rw [List.find?_cons, List.find?_cons, h a (by simp)]
    cases hqa : q a with
    | true => rfl
    | false => exact ih (fun b hb => h b (by simp [hb]))

theorem contains_eq_true_of_mem {c : String} {l : List String} (h : c ∈ l) :
    l.contains c = true := by
  rw [show l.contains c = decide (c ∈ l) from List.elem_eq_mem c l]
  exact decide_eq_true h

/-! ## C1: the evaluation environment -/

/-- C1, counterexample: the claim says no symbol other than df and pl is
reachable from the evaluated expression; but the name open resolves inside
the evaluation even though neither the locals nor the passed globals bind
it, because CPython inserts the builtins module into the empty globals
dict. -/
theorem C1_counterexample :
    PyEval.name_resolves "open" = true ∧
    PyEval.local_ns_names.contains "open" = false ∧
    PyEval.globals_arg_names.contains "open" = false := by
  decide

/-- C1, amended: the locals dict the Executor passes to eval binds exactly
df and pl and the passed globals bind nothing, but name resolution inside
the evaluated expression additionally reaches every member of the builtins
module, among them open and dunder-import, so file and process access are
reachable. -/
theorem C1_bindings_amended :
    PyEval.local_ns_names = ["df", "pl"] ∧
    PyEval.globals_arg_names = [] ∧
    (∀ n, PyEval.name_resolves n =
      (PyEval.local_ns_names.contains n || PyEval.builtins_names.contains n)) ∧
    PyEval.name_resolves "df" = true ∧
    PyEval.name_resolves "pl" = true ∧
    PyEval.name_resolves "open" = true ∧
    PyEval.name_resolves "__import__" = true := by
  refine ⟨rfl, rfl, ?_, by decide, by decide, by decide, by decide⟩
  intro n
  simp [PyEval.name_resolves, PyEval.globals_arg_names]

/-! ## C7: display-column ordering -/

/-- C7: for every result table and extracted-identifier list, the
display-column list of app.py equals the ordering the specification
describes: the first Name-group alias present in the result columns, then
the first Price-group alias not already added, then the first Year-group
alias not already added, then the extracted identifiers present in the
result columns in their original relative order, skipping duplicates;
identifiers absent from the result columns are dropped. -/
theorem C7_display_column_order {α : Type} (df : PyDF α) (qcols : List String) :
    App.get_display_columns df qcols = display_columns_spec df.columns qcols := by
  have disjPN : ∀ c ∈ App.PRICE_COLS, c ∈ App.NAME_COLS → False := by decide
  have disjYN : ∀ c ∈ App.YEAR_COLS, c ∈ App.NAME_COLS → False := by decide
  have disjYP : ∀ c ∈ App.YEAR_COLS, c ∈ App.PRICE_COLS → False := by decide
  unfold App.get_display_columns display_columns_spec
  cases hn : App.NAME_COLS.find? (fun c => df.columns.contains c) with
  | none =>
    simp only [Option.toList_none, List.contains_nil, Bool.not_false, Bool.and_true,
      List.nil_append]
    cases hp : App.PRICE_COLS.find? (fun c => df.columns.contains c) with
    | none =>
      simp only [Option.toList_none, List.contains_nil, Bool.not_false, Bool.and_true,
        List.nil_append]
      cases hy : App.YEAR_COLS.find? (fun c => df.columns.contains c) with
      | none => simp
      | some y => simp
    | some p =>
      have hpP := List.mem_of_find?_eq_some hp
      simp only [Option.toList_some, List.nil_append]
      have hy1 : App.YEAR_COLS.find?
          (fun c => df.columns.contains c && !(([p]).contains c)) =
          App.YEAR_COLS.find? (fun c => df.columns.contains c) := by
        apply find?_congr_pred
        intro c hc
        have hcp : ¬ c = p := fun h => disjYP c hc (h ▸ hpP)
        simp [hcp]
      rw [hy1]
      cases hy : App.YEAR_COLS.find? (fun c => df.columns.contains c) with
      | none => simp
      | some y =>
        have hyY := List.mem_of_find?_eq_some hy
        have hyp : ¬ y = p := fun h => disjYP y hyY (h ▸ hpP)
        simp [hyp]
  | some n =>
    have hnN := List.mem_of_find?_eq_some hn
    simp only [Option.toList_some, List.nil_append]
    have hfp : App.PRICE_COLS.find?
        (fun c => df.columns.contains c && !(([n]).contains c)) =
        App.PRICE_COLS.find? (fun c => df.columns.contains c) := by
      apply find?_congr_pred
      intro c hc
      have hcn : ¬ c = n := fun h => disjPN c hc (h ▸ hnN)
      simp [hcn]
    rw [hfp]
    cases hp : App.PRICE_COLS.find? (fun c => df.columns.contains c) with
    | none =>
      simp only [Option.toList_none, List.append_nil]
      have hy1 : App.YEAR_COLS.find?
          (fun c => df.columns.contains c && !(([n]).contains c)) =
          App.YEAR_COLS.find? (fun c => df.columns.contains c) := by
        apply find?_congr_pred
        intro c hc
        have hcn : ¬ c = n := fun h => disjYN c hc (h ▸ hnN)
        simp [hcn]
      rw [hy1]
      cases hy : App.YEAR_COLS.find? (fun c => df.columns.contains c) with
      | none => simp
      | some y =>
        have hyY := List.mem_of_find?_eq_some hy
        have hyn : ¬ y = n := fun h => disjYN y hyY (h ▸ hnN)
        simp [hyn]
    | some p =>
      have hpP := List.mem_of_find?_eq_some hp
      have hpn : ¬ p = n := fun h => disjPN p hpP (h ▸ hnN)
      simp only [Option.toList_some]
      have hy1 : App.YEAR_COLS.find?
          (fun c => df.columns.contains c && !(([n] ++ [p]).contains c)) =
          App.YEAR_COLS.find? (fun c => df.columns.contains c) := by
        apply find?_congr_pred
        intro c hc
        have hcn : ¬ c = n := fun h => disjYN c hc (h ▸ hnN)
        have hcp : ¬ c = p := fun h => disjYP c hc (h ▸ hpP)
        simp [hcn, hcp]
      rw [hy1]
      cases hy : App.YEAR_COLS.find? (fun c => df.columns.contains c) with
      | none => simp [hpn]
      | some y =>
        have hyY := List.mem_of_find?_eq_some hy
        have hyn : ¬ y = n := fun h => disjYN y hyY (h ▸ hnN)
        have hyp : ¬ y = p := fun h => disjYP y hyY (h ▸ hpP)
        simp [hpn, hyn, hyp]

/-! ## C8: price-cell formatting -/

/-- C8: for every integer or null cell of a Price-group column, app.py
formats it as the specification describes, and in particular 2,500,000
renders as 2.5 million euros, 45,000 as 45 thousand euros, 999 as plain
euros, and null as N/A. -/
theorem C8_price_formatting :
    (∀ (v : Option Int) (c : String), c ∈ App.PRICE_COLS →
      App.format_value v c = price_format_spec v) ∧
    App.format_value (some 2500000) "price" = "€2.5M" ∧
    App.format_value (some 45000) "price" = "€45K" ∧
    App.format_value (some 999) "price" = "€999" ∧
    App.format_value none "price" = "N/A" := by
  refine ⟨?_, by decide, by decide, by decide, rfl⟩
  intro v c hc
  cases v with
  | none => rfl
  | some v =>
    simp only [App.format_value, price_format_spec, contains_eq_true_of_mem hc,
      if_true]

/-- C8 witness: the alias prezzo is a Price-group column name and the
formatting theorem applies to it at the value 2,500,000. -/
theorem C8_price_formatting_witness :
    ("prezzo" ∈ App.PRICE_COLS) ∧
    App.format_value (some 2500000) "prezzo" = price_format_spec (some 2500000) :=
  ⟨by decide, C8_price_formatting.1 (some 2500000) "prezzo" (by decide)⟩

/-! ## C10: the duplicated logic of the two entry points -/

/-- C10: the column-extraction and display-column functions duplicated in
app.py and filters3.py are extensionally identical, so in particular they
return the same identifier sets and display lists. -/
theorem C10_duplicate_logic_equivalence :
    (∀ e, App.extract_cols e = Filters3.extract_cols e) ∧
    (∀ e c, c ∈ App.extract_cols e ↔ c ∈ Filters3.extract_cols e) ∧
    (∀ (α : Type) (df : PyDF α) (q : List String),
      App.get_display_columns df q = Filters3.get_display_columns df q) :=
  ⟨fun _ => rfl, fun _ _ => Iff.rfl, fun _ _ _ => rfl⟩

/-! ## C9: numeric-span round trip -/

theorem splice_id (cs : List Char) (st en : Nat) (h : st ≤ en) :
    cs.take st ++ (cs.drop st).take (en - st) ++ cs.drop en = cs := by
  have h2 : cs.drop en = (cs.drop st).drop (en - st) := by
    rw [List.drop_drop]
    congr 1
    omega
  conv_rhs => rw [← List.take_append_drop st cs]
  rw [List.append_assoc, h2, List.take_append_drop]

theorem foldl_splice_id (cs : List Char) :
    ∀ l : List (NumEdit.Span × List Char),
      (∀ p ∈ l, p.1.start ≤ p.1.stop ∧
        p.2 = (cs.drop p.1.start).take (p.1.stop - p.1.start)) →
      l.foldl (fun acc sr => acc.take sr.1.start ++ sr.2 ++ acc.drop sr.1.stop) cs
        = cs := by
  intro l
  induction l with
  | nil => intro _; rfl
  | cons hd tl ih =>
    intro h
    have hh := h hd (by simp)
    rw [List.foldl_cons, hh.2, splice_id cs _ _ hh.1]
    exact ih (fun p hp => h p (by simp [hp]))

theorem scanSpans_inv (cs : List Char) :
    ∀ fuel i sp, sp ∈ NumEdit.scanSpans cs fuel i →
      sp.start ≤ sp.stop ∧
        sp.lit = (cs.drop sp.start).take (sp.stop - sp.start) := by
  intro fuel
  induction fuel with
  | zero => intro i sp hsp; simp [NumEdit.scanSpans] at hsp
  | succ f ih =>
    intro i sp hsp
    rw [NumEdit.scanSpans] at hsp
    by_cases hlt : i < cs.length
    · rw [if_pos hlt] at hsp
      cases hm : NumEdit.matchLen cs i with
      | none =>
        rw [hm] at hsp
        exact ih (i + 1) sp hsp
      | some L =>
        rw [hm] at hsp
        rcases List.mem_cons.mp hsp with hhd | htl
        · subst hhd
          constructor
          · exact Nat.le_add_right i L
          · simp [Nat.add_sub_cancel_left]
        · exact ih (i + L) sp htl
    · rw [if_neg hlt] at hsp
      simp at hsp

theorem zip_map_self {α β : Type} (f : α → β) :
    ∀ l : List α, l.zip (l.map f) = l.map (fun a => (a, f a)) := by
  intro l
  induction l with
  | nil => rfl
  | cons a t ih => simp [ih]

/-- C9: rewriting every numeric span found in a text with its own literal,
applied right to left as the source does, reproduces the text exactly. -/
theorem C9_numeric_span_roundtrip (cs : List Char) :
    NumEdit.rewriteNumbers cs (NumEdit.extract_number_spans cs)
      ((NumEdit.extract_number_spans cs).map (fun sp => sp.lit)) = cs := by
  unfold NumEdit.rewriteNumbers
  apply foldl_splice_id
  intro p hp
  rw [List.mem_reverse, zip_map_self, List.mem_map] at hp
  obtain ⟨sp, hsp, hpe⟩ := hp
  subst hpe
  exact scanSpans_inv cs _ _ sp hsp

/-! ## Lemmas about the retry loop -/

theorem qbLoop_length_le {α : Type} (execf : String → Except String (PyDF α))
    (gen : Nat → String) (q s : String) :
    ∀ fuel k err le, (App.qbLoop execf gen q s fuel k err le).1.length ≤ fuel := by
  intro fuel
  induction fuel with
  | zero => intro k err le; simp [App.qbLoop]
  | succ f ih =>
    intro k err le
    rw [App.qbLoop]
    by_cases hg : gen k = ""
    · simp [hg]
    · rw [if_neg hg]
      cases hex : execf (gen k) with
      | ok res => simp
      | error e =>
        simp only [List.length_cons]
        have := ih (k + 1) (some e) (gen k)
        omega

theorem failPrompts_length (q s : String) (emsg : Nat → String) :
    ∀ m k, (failPrompts q s emsg m k).length = m := by
  intro m
  induction m with
  | zero => intro k; rfl
  | succ n ih => intro k; simp [failPrompts, ih]

theorem failPrompts_get (q s : String) (emsg : Nat → String) :
    ∀ m k i, i < m →
      (failPrompts q s emsg m k).get? i =
        some (App.promptWithError q s (some (emsg (k + i)))) := by
  intro m
  induction m with
  | zero => intro k i hi; omega
  | succ n ih =>
    intro k i hi
    cases i with
    | zero => simp [failPrompts]
    | succ j =>
      have := ih (k + 1) j (by omega)
      simpa [failPrompts, Nat.add_assoc, Nat.add_comm 1 j] using this

theorem qbLoop_all_fail {α : Type} (execf : String → Except String (PyDF α))
    (gen : Nat → String) (q s : String) (emsg : Nat → String) :
    ∀ m k err le,
      (∀ j, k ≤ j → j < k + (m + 1) →
        gen j ≠ "" ∧ execf (gen j) = Except.error (emsg j)) →
      App.qbLoop execf gen q s (m + 1) k err le =
        (App.promptWithError q s err :: failPrompts q s emsg m k,
          QBOutcome.exhausted (gen (k + m)) (some (emsg (k + m)))) := by
  intro m
  induction m with
  | zero =>
    intro k err le h
    obtain ⟨hne, herr⟩ := h k (Nat.le_refl k) (by omega)
    simp [App.qbLoop, hne, herr, failPrompts]
  | succ n ih =>
    intro k err le h
    obtain ⟨hne, herr⟩ := h k (Nat.le_refl k) (by omega)
    rw [App.qbLoop, if_neg hne, herr]
    have hrec := ih (k + 1) (some (emsg k)) (gen k)
      (fun j h1 h2 => h j (by omega) (by omega))
    simp only [hrec, failPrompts]
    have h1 : k + 1 + n = k + (n + 1) := by omega
    rw [h1]

theorem qbLoop_empty_at {α : Type} (execf : String → Except String (PyDF α))
    (gen : Nat → String) (q s : String) (emsg : Nat → String) :
    ∀ m fuel k err le, m < fuel →
      (∀ j, k ≤ j → j < k + m →
        gen j ≠ "" ∧ execf (gen j) = Except.error (emsg j)) →
      gen (k + m) = "" →
      App.qbLoop execf gen q s fuel k err le =
        (App.promptWithError q s err :: failPrompts q s emsg m k,
          QBOutcome.emptyGen) := by
  intro m
  induction m with
  | zero =>
    intro fuel k err le hf _ hk
    cases fuel with
    | zero => omega
    | succ f =>
      have hk0 : gen k = "" := by simpa using hk
      simp [App.qbLoop, hk0, failPrompts]
  | succ n ih =>
    intro fuel k err le hf h hk
    cases fuel with
    | zero => omega
    | succ f =>
      obtain ⟨hne, herr⟩ := h k (Nat.le_refl k) (by omega)
      rw [App.qbLoop, if_neg hne, herr]
      have hrec := ih f (k + 1) (some (emsg k)) (gen k) (by omega)
        (fun j h1 h2 => h j (by omega) (by omega))
        (by have h1 : k + 1 + n = k + (n + 1) := by omega
            rw [h1]; exact hk)
      simp only [hrec, failPrompts]

theorem qbLoop_success_inv {α : Type} (execf : String → Except String (PyDF α))
    (gen : Nat → String) (q s : String) :
    ∀ fuel k err le e t c,
      (App.qbLoop execf gen q s fuel k err le).2 = QBOutcome.success e t c →
      ∃ t0, execf e = Except.ok t0 ∧ t.columns = t0.columns ∧
        t.rows = t0.rows.take 20 ∧
        c = App.get_display_columns t0 (App.extract_cols e) := by
  intro fuel
  induction fuel with
  | zero => intro k err le e t c h; simp [App.qbLoop] at h
  | succ f ih =>
    intro k err le e t c h
    rw [App.qbLoop] at h
    by_cases hg : gen k = ""
    · rw [if_pos hg] at h
      simp at h
    · rw [if_neg hg] at h
      cases hex : execf (gen k) with
      | ok res =>
        rw [hex] at h
        simp only [QBOutcome.success.injEq] at h
        obtain ⟨he, ht, hc⟩ := h
        subst he
        exact ⟨res, hex, by rw [← ht], by rw [← ht], by rw [← hc]⟩
      | error e2 =>
        rw [hex] at h
        exact ih (k + 1) (some e2) (gen k) e t c h

theorem promptWithError_contains (q s e : String) :
    strContains (App.promptWithError q s (some e)) e := by
  by_cases he : e = ""
  · subst he
    exact ⟨App.promptWithError q s (some ""), "", by
      simp [String.append_empty]⟩
  · refine ⟨App.renderPrompt s q ++
      "\nThe previous expression produced the following error:\n",
      "\nPlease provide a corrected Polars expression.", ?_⟩
    simp [App.promptWithError, he]

/-! ## C2: bounded feedback-driven retry -/

/-- C2: when the dataset is nonempty and every generated expression up to
the retry budget is nonempty and fails execution with message emsg k, the
pipeline makes exactly max_retries + 1 generator calls and ends exhausted
with the last expression and error; the prompt of call k+1 carries the
failure message of attempt k as a substring; and for arbitrary generator and
executor behaviour the number of generator calls never exceeds
max_retries + 1. -/
theorem C2_retry_bound_and_feedback {α : Type}
    (execf : String → Except String (PyDF α)) (gen : Nat → String)
    (df : PyDF α) (q : String) (headStr : PyDF α → String) (mr : Nat)
    (emsg : Nat → String)
    (hdf : df.rows ≠ [])
    (hfail : ∀ k, k ≤ mr → gen k ≠ "" ∧ execf (gen k) = Except.error (emsg k)) :
    (App.query_boats execf gen df q headStr mr).1.length = mr + 1 ∧
    (App.query_boats execf gen df q headStr mr).2 =
      QBOutcome.exhausted (gen mr) (some (emsg mr)) ∧
    (∀ k, k < mr → ∃ p,
      (App.query_boats execf gen df q headStr mr).1.get? (k + 1) = some p ∧
      strContains p (emsg k)) ∧
    (∀ (gen2 : Nat → String) (execf2 : String → Except String (PyDF α)),
      (App.query_boats execf2 gen2 df q headStr mr).1.length ≤ mr + 1) := by
  have h0 : ¬ df.rows.length = 0 := by
    simpa [List.length_eq_zero] using hdf
  have hq : App.query_boats execf gen df q headStr mr =
      App.qbLoop execf gen q (headStr df) (mr + 1) 0 none "" := by
    simp [App.query_boats, h0]
  have hrun := qbLoop_all_fail execf gen q (headStr df) emsg mr 0 none ""
    (fun j _ h2 => hfail j (by omega))
  rw [Nat.zero_add] at hrun
  refine ⟨?_, ?_, ?_, ?_⟩
  · rw [hq, hrun]
    simp [failPrompts_length]
  · rw [hq, hrun]
  · intro k hk
    refine ⟨App.promptWithError q (headStr df) (some (emsg k)), ?_,
      promptWithError_contains q (headStr df) (emsg k)⟩
    rw [hq, hrun]
    have := failPrompts_get q (headStr df) emsg mr 0 k hk
    rw [Nat.zero_add] at this
    simpa using this
  · intro gen2 execf2
    simp only [App.query_boats, if_neg h0]
    exact qbLoop_length_le execf2 gen2 q (headStr df) (mr + 1) 0 none ""

/-- C2 witness: with max_retries 2, a one-row dataset, a generator that
always replies the same malformed text, and an executor that always fails
with message boom, the run makes exactly three generator calls and ends
exhausted. -/
theorem C2_retry_witness :
    (App.query_boats wExecFail wGenBad wDfOne "q" wHeadStr 2).1.length = 2 + 1 ∧
    (App.query_boats wExecFail wGenBad wDfOne "q" wHeadStr 2).2 =
      QBOutcome.exhausted (wGenBad 2) (some "boom") := by
  have h := C2_retry_bound_and_feedback wExecFail wGenBad wDfOne "q" wHeadStr 2
    (fun _ => "boom") (by decide) (fun k _ => ⟨show ("BAD" : String) ≠ "" by decide, rfl⟩)
  exact ⟨h.1, h.2.1⟩

/-! ## C3: empty-dataset short circuit -/

/-- C3: a dataset with zero rows makes query_boats return the empty triple
with zero generator calls. -/
theorem C3_empty_dataset_short_circuit {α : Type}
    (execf : String → Except String (PyDF α)) (gen : Nat → String)
    (df : PyDF α) (q : String) (headStr : PyDF α → String) (mr : Nat)
    (h : df.rows = []) :
    App.query_boats execf gen df q headStr mr = ([], QBOutcome.emptyDataset) ∧
    (App.query_boats execf gen df q headStr mr).2.toTriple =
      (("" : String), (emptyDF : PyDF α), ([] : List String)) := by
  have h0 : df.rows.length = 0 := by simp [h]
  constructor
  · simp [App.query_boats, h0]
  · simp [App.query_boats, h0, QBOutcome.toTriple]

/-- C3 witness: a dataset with a price column and no rows short-circuits
to the empty result without any generator call. -/
theorem C3_empty_dataset_witness :
    App.query_boats wExecFail wGenBad wDfEmpty "q" wHeadStr 2 =
      ([], QBOutcome.emptyDataset) :=
  (C3_empty_dataset_short_circuit wExecFail wGenBad wDfEmpty "q" wHeadStr 2 rfl).1

/-! ## C5: empty generation is terminal -/

/-- C5: if the first k attempts fail normally and attempt k returns empty
expression text, query_boats stops at that point with the empty result,
making k + 1 generator calls in total, however many retries remain. -/
theorem C5_empty_generation_terminal {α : Type}
    (execf : String → Except String (PyDF α)) (gen : Nat → String)
    (df : PyDF α) (q : String) (headStr : PyDF α → String) (mr k : Nat)
    (emsg : Nat → String)
    (hdf : df.rows ≠ []) (hk : k ≤ mr)
    (hpre : ∀ j, j < k → gen j ≠ "" ∧ execf (gen j) = Except.error (emsg j))
    (hempty : gen k = "") :
    (App.query_boats execf gen df q headStr mr).2 = QBOutcome.emptyGen ∧
    (App.query_boats execf gen df q headStr mr).1.length = k + 1 ∧
    (App.query_boats execf gen df q headStr mr).2.toTriple =
      (("" : String), (emptyDF : PyDF α), ([] : List String)) := by
  have h0 : ¬ df.rows.length = 0 := by
    simpa [List.length_eq_zero] using hdf
  have hq : App.query_boats execf gen df q headStr mr =
      App.qbLoop execf gen q (headStr df) (mr + 1) 0 none "" := by
    simp [App.query_boats, h0]
  have hrun := qbLoop_empty_at execf gen q (headStr df) emsg k (mr + 1) 0 none ""
    (by omega) (fun j _ h2 => hpre j (by omega)) (by simpa using hempty)
  refine ⟨?_, ?_, ?_⟩
  · rw [hq, hrun]
  · rw [hq, hrun]
    simp [failPrompts_length]
  · rw [hq, hrun]
    rfl

/-- C5 witness: a generator that replies empty at the first attempt, with
five retries remaining, terminates at once with the empty result after one
generator call. -/
theorem C5_empty_generation_witness :
    (App.query_boats wExecFail wGenEmpty wDfOne "q" wHeadStr 5).2 =
      QBOutcome.emptyGen ∧
    (App.query_boats wExecFail wGenEmpty wDfOne "q" wHeadStr 5).1.length =
      0 + 1 := by
  have h := C5_empty_generation_terminal wExecFail wGenEmpty wDfOne "q" wHeadStr
    5 0 (fun _ => "") (by decide) (by omega)
    (fun j hj => absurd hj (by omega)) rfl
  exact ⟨h.1, h.2.1⟩

/-! ## C6: the 20-row cap -/

/-- C6 counterexample: the console renderer bullets of filters3.py renders
every row of a successful result; on a 21-row result with a resolvable name
column it renders 21 rows, more than the 20 the claim allows. -/
theorem C6_bullets_counterexample :
    (Filters3.bullets_rendered_rows
        (⟨["name"], List.replicate 21 ()⟩ : PyDF Unit) []).length = 21 ∧
    20 < (Filters3.bullets_rendered_rows
        (⟨["name"], List.replicate 21 ()⟩ : PyDF Unit) []).length := by
  constructor <;> decide

/-- C6, amended: the interactive entry point query_boats truncates every
successful result to its first 20 rows in order (so what it returns and
renders never exceeds 20 rows); the console renderer of filters3.py,
however, renders all rows without a cap. -/
theorem C6_truncation_amended {α : Type}
    (execf : String → Except String (PyDF α)) (gen : Nat → String)
    (df : PyDF α) (q : String) (headStr : PyDF α → String) (mr : Nat)
    (e : String) (t : PyDF α) (c : List String)
    (h : (App.query_boats execf gen df q headStr mr).2 =
      QBOutcome.success e t c) :
    ∃ t0, execf e = Except.ok t0 ∧ t.columns = t0.columns ∧
      t.rows = t0.rows.take 20 ∧ t.rows.length ≤ 20 := by
  by_cases h0 : df.rows.length = 0
  · simp [App.query_boats, h0] at h
  · simp only [App.query_boats, if_neg h0] at h
    obtain ⟨t0, hok, hcols, hrows, -⟩ :=
      qbLoop_success_inv execf gen q (headStr df) (mr + 1) 0 none "" e t c h
    refine ⟨t0, hok, hcols, hrows, ?_⟩
    rw [hrows]
    exact List.length_take_le 20 t0.rows

/-- C6 witness: an executor returning a 25-row table yields a successful
result truncated to its first 20 rows. -/
theorem C6_truncation_witness :
    ∃ t0 : PyDF Unit, wExecOk "x" = Except.ok t0 ∧
      (⟨["name"], List.replicate 20 ()⟩ : PyDF Unit).columns = t0.columns ∧
      (⟨["name"], List.replicate 20 ()⟩ : PyDF Unit).rows = t0.rows.take 20 ∧
      (⟨["name"], List.replicate 20 ()⟩ : PyDF Unit).rows.length ≤ 20 :=
  C6_truncation_amended wExecOk wGenX wDfOne "q" wHeadStr 2 "x"
    (⟨["name"], List.replicate 20 ()⟩ : PyDF Unit) ["name"] (by decide)
